import Mathlib

/-!
Verification development for the Daily Mail comment scraper (`main.go`).

The Go program is shallowly embedded: pure functions become Lean
functions, the `main` retry loop becomes explicit recursion on the
remaining iteration budget, Go `int`/`int64` become `Int` (with explicit
range checks where the code's behaviour depends on overflow), fallible
calls return `Except`/`Option`, and a nil-pointer dereference is modelled
as a distinguished panic outcome.  Standard-library behaviour the code
relies on (`encoding/json`, `encoding/csv`, `net/url`, `regexp`,
`strconv`) is embedded alongside, restricted to the features the program
exercises.
-/

namespace DMScrape

/-! ### JSON values

Abstract JSON documents, the interface between the rendered page text and
`json.Unmarshal` in `parseResp`.  Numbers are integers: every numeric
field of the Go structs is an integer type, and the decoder rejects
fractional values for them anyway. -/

inductive JValue where
  | null : JValue
  | bool (b : Bool) : JValue
  | num (n : Int) : JValue
  | str (s : String) : JValue
  | arr (elems : List JValue) : JValue
  | obj (fields : List (String × JValue)) : JValue

/-! ### Data model (`main.go` lines 45-97)

`Comment` mirrors the Go struct field for field; `Payload.Page` models Go
`[]*Comment`, so an entry is `Option Comment` (`none` = nil pointer). -/

structure Comment where
  UserAlias : String
  UserLocation : String
  FormattedDate : String
  AssetID : Int
  VoteCount : Int
  ID : Int
  UserIdentifier : String
  HasProfilePicture : Bool
  VoteRating : Int
  DateCreated : String
  AssetCommentCount : Int
  AssetURL : String
  Message : String
  deriving Repr, DecidableEq

structure Payload where
  Total : Int
  Max : Int
  Page : List (Option Comment)
  deriving Repr, DecidableEq

structure CommentResponse where
  Status : String
  Code : String
  Payload : Payload
  deriving Repr, DecidableEq

structure ScrapeCfg where
  maxComments : Int
  timeout : Nat
  deriving Repr, DecidableEq

def NewScrapeCfg (maxComments : Int) (timeout : Nat) : ScrapeCfg :=
  { maxComments := maxComments, timeout := timeout }

/-- Embedding of `DefaultScrapeCfg`: 506 comments, 15s timeout
(nanoseconds, as Go `time.Duration`). -/
def DefaultScrapeCfg : ScrapeCfg :=
  { maxComments := 506, timeout := 15000000000 }

/-- Zero value of `Comment`, as produced by Go variable declaration /
fresh allocation before `json.Unmarshal` fills fields. -/
def zeroComment : Comment :=
  { UserAlias := "", UserLocation := "", FormattedDate := "", AssetID := 0,
    VoteCount := 0, ID := 0, UserIdentifier := "", HasProfilePicture := false,
    VoteRating := 0, DateCreated := "", AssetCommentCount := 0, AssetURL := "",
    Message := "" }

def zeroPayload : Payload :=
  { Total := 0, Max := 0, Page := [] }

def zeroCommentResponse : CommentResponse :=
  { Status := "", Code := "", Payload := zeroPayload }

/-! ### Response decoding (`parseResp`, `main.go` lines 191-208)

`parseResp` seeks to the start of the body, reads it all (both modelled
away: the body is the JSON document itself) and calls `json.Unmarshal`
into a zero `CommentResponse`.  The `encoding/json` behaviour embedded
here, for the struct shapes above: an object fills fields by exact tag
key (later duplicates override, unknown keys are ignored), `null` is a
no-op for every target, a type-mismatched value is an error, an array
fills a slice element-wise, and `null` for a `*Comment` element yields a
nil pointer. -/

def updStr (v : JValue) (cur : String) : Except String String :=
  match v with
  | .null => .ok cur
  | .str s => .ok s
  | _ => .error "json: cannot unmarshal value into Go value of type string"

def updInt (v : JValue) (cur : Int) : Except String Int :=
  match v with
  | .null => .ok cur
  | .num n => .ok n
  | _ => .error "json: cannot unmarshal value into Go value of type int"

def updBool (v : JValue) (cur : Bool) : Except String Bool :=
  match v with
  | .null => .ok cur
  | .bool b => .ok b
  | _ => .error "json: cannot unmarshal value into Go value of type bool"

def setCommentField (c : Comment) (k : String) (v : JValue) : Except String Comment :=
  match k with
  | "userAlias" => (updStr v c.UserAlias).map fun s => { c with UserAlias := s }
  | "userLocation" => (updStr v c.UserLocation).map fun s => { c with UserLocation := s }
  | "formattedDateAndTime" => (updStr v c.FormattedDate).map fun s => { c with FormattedDate := s }
  | "assetId" => (updInt v c.AssetID).map fun n => { c with AssetID := n }
  | "voteCount" => (updInt v c.VoteCount).map fun n => { c with VoteCount := n }
  | "id" => (updInt v c.ID).map fun n => { c with ID := n }
  | "userIdentifier" => (updStr v c.UserIdentifier).map fun s => { c with UserIdentifier := s }
  | "hasProfilePicture" => (updBool v c.HasProfilePicture).map fun b => { c with HasProfilePicture := b }
  | "voteRating" => (updInt v c.VoteRating).map fun n => { c with VoteRating := n }
  | "dateCreated" => (updStr v c.DateCreated).map fun s => { c with DateCreated := s }
  | "assetCommentCount" => (updInt v c.AssetCommentCount).map fun n => { c with AssetCommentCount := n }
  | "assetUrl" => (updStr v c.AssetURL).map fun s => { c with AssetURL := s }
  | "message" => (updStr v c.Message).map fun s => { c with Message := s }
  | _ => .ok c

/-- Decode one element of the `page` array, target type `*Comment`:
JSON `null` gives a nil pointer, an object fills a fresh `Comment`. -/
def decodeCommentElem (v : JValue) : Except String (Option Comment) :=
  match v with
  | .null => .ok none
  | .obj fs => (fs.foldlM (fun c kv => setCommentField c kv.1 kv.2) zeroComment).map some
  | _ => .error "json: cannot unmarshal value into Go value of type *main.Comment"

def updPage (v : JValue) (cur : List (Option Comment)) :
    Except String (List (Option Comment)) :=
  match v with
  | .null => .ok cur
  | .arr xs => xs.mapM decodeCommentElem
  | _ => .error "json: cannot unmarshal value into Go value of type []*main.Comment"

def setPayloadField (p : Payload) (k : String) (v : JValue) : Except String Payload :=
  match k with
  | "total" => (updInt v p.Total).map fun n => { p with Total := n }
  | "max" => (updInt v p.Max).map fun n => { p with Max := n }
  | "page" => (updPage v p.Page).map fun l => { p with Page := l }
  | _ => .ok p

def updPayload (v : JValue) (cur : Payload) : Except String Payload :=
  match v with
  | .null => .ok cur
  | .obj fs => fs.foldlM (fun p kv => setPayloadField p kv.1 kv.2) cur
  | _ => .error "json: cannot unmarshal value into Go value of type main.Payload"

def setCommentResponseField (r : CommentResponse) (k : String) (v : JValue) :
    Except String CommentResponse :=
  match k with
  | "status" => (updStr v r.Status).map fun s => { r with Status := s }
  | "code" => (updStr v r.Code).map fun s => { r with Code := s }
  | "payload" => (updPayload v r.Payload).map fun p => { r with Payload := p }
  | _ => .ok r

def updCommentResponse (v : JValue) (cur : CommentResponse) :
    Except String CommentResponse :=
  match v with
  | .null => .ok cur
  | .obj fs => fs.foldlM (fun r kv => setCommentResponseField r kv.1 kv.2) cur
  | _ => .error "json: cannot unmarshal value into Go value of type main.CommentResponse"

/-- Embedding of `ArticleInfo.parseResp`: unmarshal the body into a zero
`CommentResponse` (the seek and read-all of the in-memory reader always
succeed and are modelled away). -/
def parseResp (v : JValue) : Except String CommentResponse :=
  updCommentResponse v zeroCommentResponse

/-! ### JSON encoding (`json.Marshal` on these structs)

Used only to state the decoder round-trip property: keys in struct field
order, taken from the field tags, every field emitted, nil `*Comment`
as `null`. -/

def encodeComment (c : Comment) : JValue :=
  .obj [("userAlias", .str c.UserAlias),
        ("userLocation", .str c.UserLocation),
        ("formattedDateAndTime", .str c.FormattedDate),
        ("assetId", .num c.AssetID),
        ("voteCount", .num c.VoteCount),
        ("id", .num c.ID),
        ("userIdentifier", .str c.UserIdentifier),
        ("hasProfilePicture", .bool c.HasProfilePicture),
        ("voteRating", .num c.VoteRating),
        ("dateCreated", .str c.DateCreated),
        ("assetCommentCount", .num c.AssetCommentCount),
        ("assetUrl", .str c.AssetURL),
        ("message", .str c.Message)]

def encodeCommentElem (oc : Option Comment) : JValue :=
  match oc with
  | none => .null
  | some c => encodeComment c

def encodePayload (p : Payload) : JValue :=
  .obj [("total", .num p.Total),
        ("max", .num p.Max),
        ("page", .arr (p.Page.map encodeCommentElem))]

def encodeCommentResponse (r : CommentResponse) : JValue :=
  .obj [("status", .str r.Status),
        ("code", .str r.Code),
        ("payload", encodePayload r.Payload)]

/-! ### URL resolution (`ArticleInfoFromURL`, `main.go` lines 99-140)

The pattern `urlMatcher` is the Go regexp
`[\w:/.]+-(\d+)/([\w-]+)\.html`.  Go `regexp` has leftmost-first
(backtracking-order) submatch semantics.  For this particular pattern the
backtracking is degenerate: none of the three character classes contains
the literal that terminates it (`-` after `[\w:/.]+`, `/` after `(\d+)`,
`.` after `([\w-]+)`), so at a given start position only the maximal run
of each class can be followed by its terminator, and the match attempt at
each position is deterministic; the overall match is the first position
where it succeeds.  `urlMatcherMatchAt` embeds one attempt and
`urlMatcherFind` the left-to-right scan, returning the two capture
groups. -/

/-- Go regexp `\w`: ASCII letters, digits and underscore. -/
def isWordChar (c : Char) : Bool :=
  c.isAlphanum || c = '_'

/-- The character class `[\w:/.]`. -/
def inClassBody (c : Char) : Bool :=
  isWordChar c || c = ':' || c = '/' || c = '.'

/-- The character class `[\w-]` of the slug capture group. -/
def inClassSlug (c : Char) : Bool :=
  isWordChar c || c = '-'

/-- One anchored match attempt of `urlMatcher` at the head of `cs`,
returning the digit capture and the slug capture on success. -/
def urlMatcherMatchAt (cs : List Char) : Option (String × String) :=
  let a := cs.takeWhile inClassBody
  if a.isEmpty then none else
  match cs.drop a.length with
  | '-' :: r2 =>
    let d := r2.takeWhile Char.isDigit
    if d.isEmpty then none else
    match r2.drop d.length with
    | '/' :: r4 =>
      let b := r4.takeWhile inClassSlug
      if b.isEmpty then none else
      match r4.drop b.length with
      | '.' :: 'h' :: 't' :: 'm' :: 'l' :: _ => some (String.mk d, String.mk b)
      | _ => none
    | _ => none
  | _ => none

/-- Embedding of `urlMatcher.FindStringSubmatch`: scan start positions
left to right, return the captures of the first successful attempt. -/
def urlMatcherFind : List Char → Option (String × String)
  | [] => none
  | c :: rest =>
    match urlMatcherMatchAt (c :: rest) with
    | some r => some r
    | none => urlMatcherFind rest

/-- Hostname and re-serialized form of a parsed URL, the two pieces of
`net/url.URL` the program reads. -/
structure GoURL where
  hostname : String
  serialized : String
  deriving Repr, DecidableEq

/-- The characters following the first `"://"` of the list, if any. -/
def afterSchemeSep : List Char → Option (List Char)
  | [] => none
  | ':' :: '/' :: '/' :: rest => some rest
  | _ :: rest => afterSchemeSep rest

/-- The characters following the last `'@'` (the whole list when there
is none): strips the userinfo part of an authority. -/
def afterLastAt (l : List Char) : List Char :=
  l.foldl (fun acc c => if c = '@' then [] else acc ++ [c]) []

/-- Modelled behaviour of `net/url.Parse` as used here: parsing fails on
ASCII control characters; otherwise the hostname is the authority part
(after the first `"://"`, up to the first `/`, `?` or `#`), with
userinfo and port stripped; URLs without a `"://"` have an empty
hostname.  Re-serialization (`URL.String`) is modelled as the identity,
which is exact for URLs free of percent-escaping normalisation. -/
def goURLParse (s : String) : Option GoURL :=
  if s.data.any (fun c => c.toNat < 32 || c.toNat = 127) then none
  else
    match afterSchemeSep s.data with
    | some rest =>
      let authority := rest.takeWhile (fun c => c ≠ '/' && c ≠ '?' && c ≠ '#')
      let hostname := String.mk ((afterLastAt authority).takeWhile (fun c => c ≠ ':'))
      some { hostname := hostname, serialized := s }
    | none => some { hostname := "", serialized := s }

/-- Decimal value of a digit string. -/
def digitsVal (s : String) : Nat :=
  s.data.foldl (fun a c => a * 10 + (c.toNat - 48)) 0

/-- Modelled behaviour of `strconv.Atoi` on the digit-only strings the
matcher produces: the value, unless it overflows a 64-bit signed `int`
(Go returns `ErrRange` then). -/
def goAtoi (s : String) : Option Int :=
  if s.isEmpty then none
  else if s.data.all Char.isDigit then
    if digitsVal s ≤ 9223372036854775807 then some (Int.ofNat (digitsVal s)) else none
  else none

/-- The four distinct error messages `ArticleInfoFromURL` wraps around
`ErrInvalidURL`. -/
inductive URLErr where
  | invalidURL : URLErr
  | structureMismatch : URLErr
  | badArticleID : URLErr
  | emptyName : URLErr
  deriving Repr, DecidableEq

/-- Embedding of `ArticleInfo` (the logger field, external diagnostics,
is dropped). -/
structure ArticleInfo where
  ID : Int
  Name : String
  scrapeCfg : ScrapeCfg
  deriving Repr, DecidableEq

/-- Embedding of `ArticleInfoFromURL`: parse the URL, require the
expected hostname, run the matcher on the re-serialized URL, convert the
ID capture with `Atoi`, reject an empty name, default the config when
`nil` was passed. -/
def ArticleInfoFromURL (dmURL : String) (cfg : Option ScrapeCfg) :
    Except URLErr ArticleInfo :=
  match goURLParse dmURL with
  | none => .error .invalidURL
  | some u =>
    if u.hostname = "www.dailymail.co.uk" then
      match urlMatcherFind u.serialized.data with
      | none => .error .structureMismatch
      | some (d, nm) =>
        match goAtoi d with
        | none => .error .badArticleID
        | some id =>
          if nm = "" then .error .emptyName
          else .ok { ID := id, Name := nm, scrapeCfg := cfg.getD DefaultScrapeCfg }
    else .error .invalidURL

/-- Embedding of `ArticleInfo.commentsEndpoint`. -/
def commentsEndpoint (a : ArticleInfo) : String :=
  "https://www.dailymail.co.uk/reader-comments/p/asset/readcomments/" ++
    toString a.ID ++ "?max=" ++ toString a.scrapeCfg.maxComments ++ "&order=desc"

/-! ### CSV export (`CommentsToCSV`, `main.go` lines 210-250)

`encoding/csv.Writer` with the default comma and `UseCRLF = false`:
each record is the comma-joined fields followed by `"\n"`; a field is
quoted when non-empty and equal to `\.`, containing a comma, quote, CR
or LF, or starting with a space character; quoting doubles the quotes
and keeps CR/LF as they are.  Writes into a `bytes.Buffer` cannot fail,
so the writer's error branches are dead and the only failure is the Go
nil-pointer panic when a `Page` entry is a nil `*Comment`, modelled as
`none`. -/

/-- Modelled `unicode.IsSpace` on the first rune of a field, covering the
Latin-1 range (the spacing classes beyond it do not occur in this data). -/
def goIsSpace (c : Char) : Bool :=
  c = ' ' || c = '\t' || c = '\n' || c.toNat = 11 || c.toNat = 12 || c = '\r' ||
    c.toNat = 133 || c.toNat = 160

/-- Embedding of `csv.Writer.fieldNeedsQuotes`. -/
def fieldNeedsQuotes (f : String) : Bool :=
  if f = "" then false
  else if f = "\\." then true
  else if f.data.any (fun c => c = '\n' || c = '\r' || c = '"' || c = ',') then true
  else goIsSpace (f.front)

/-- Quote a field: surround with quotes, double every inner quote
(CR and LF are written through unchanged since `UseCRLF` is false). -/
def quoteField (f : String) : String :=
  "\"" ++ String.join (f.data.map fun c => if c = '"' then "\"\"" else String.mk [c]) ++ "\""

def writeField (f : String) : String :=
  if fieldNeedsQuotes f then quoteField f else f

/-- Embedding of `csv.Writer.Write` for one record, with the trailing
`"\n"`. -/
def writeRecord (fields : List String) : String :=
  String.intercalate "," (fields.map writeField) ++ "\n"

/-- The header row of `CommentsToCSV`. -/
def csvHeaders : List String :=
  ["user-alias", "user-location", "formatted-date-and-time", "asset-id", "vote-count",
   "id", "user-identifier", "has-profile-picture", "vote-rating", "date-created",
   "asset-comment-count", "asset-url", "message"]

/-- The row built for one comment: string fields as-is, `strconv.Itoa` /
`strconv.FormatInt` as decimal text, `strconv.FormatBool` as
`true`/`false`. -/
def commentRow (c : Comment) : List String :=
  [c.UserAlias,
   c.UserLocation,
   c.FormattedDate,
   toString c.AssetID,
   toString c.VoteCount,
   toString c.ID,
   c.UserIdentifier,
   if c.HasProfilePicture then "true" else "false",
   toString c.VoteRating,
   c.DateCreated,
   toString c.AssetCommentCount,
   c.AssetURL,
   c.Message]

/-- The buffer-accumulation loop of `CommentsToCSV` over the comment
slice; dereferencing a nil `*Comment` (`c.UserAlias` on `c == nil`)
panics, modelled as `none`. -/
def csvLoop (buf : String) : List (Option Comment) → Option String
  | [] => some buf
  | none :: _ => none
  | some c :: rest => csvLoop (buf ++ writeRecord (commentRow c)) rest

/-- Embedding of `CommentsToCSV`: write the header record, then one
record per comment in slice order. -/
def CommentsToCSV (comments : List (Option Comment)) : Option String :=
  csvLoop (writeRecord csvHeaders) comments

/-! ### The scrape/parse retry loop and `main` (`main.go` lines 266-316)

`Retries` is the constant bound.  The Render Client
(`scrapeComments` plus the headless browser behind it) is the external
collaborator: one run of it is an oracle from the attempt number to an
outcome — a navigation timeout (`context.DeadlineExceeded`), some other
render failure, or the text content of the `pre` element, given as the
JSON document it contains.  `MustNotErr` on a render error exits the
process; a decode error increments `retries` and loops.  When the loop
exhausts its budget `commentResp` is still nil and the subsequent
`commentResp.Payload.Page` is a nil-pointer dereference: the run panics. -/

def JSONTag : String := "pre"

def Retries : Nat := 3

inductive RenderErrKind where
  | timeout : RenderErrKind
  | failure : RenderErrKind
  deriving Repr, DecidableEq

/-- Outcome of one Render Client invocation. -/
inductive RenderResult where
  | timeout : RenderResult
  | failed : RenderResult
  | page (body : JValue) : RenderResult

/-- Terminal state of the retry loop together with the number of
render/decode attempts performed. -/
inductive LoopResult where
  | success (resp : CommentResponse) (attempts : Nat) : LoopResult
  | exited (kind : RenderErrKind) (attempts : Nat) : LoopResult
  | nilPanic (attempts : Nat) : LoopResult
  deriving Repr, DecidableEq

/-- One spin of `for retries <= Retries { ... }`:  `retries` is the Go
loop variable, `fuel` the remaining iterations `maxRetries + 1 - retries`
(the loop condition `retries <= maxRetries` is exactly `fuel > 0`).
Running out of fuel leaves `commentResp` nil: `nilPanic`. -/
def scrapeLoopAux (render : Nat → RenderResult)
    (decode : JValue → Except String CommentResponse) :
    Nat → Nat → LoopResult
  | retries, 0 => .nilPanic retries
  | retries, fuel + 1 =>
    match render retries with
    | .timeout => .exited .timeout (retries + 1)
    | .failed => .exited .failure (retries + 1)
    | .page body =>
      match decode body with
      | .ok resp => .success resp (retries + 1)
      | .error _ => scrapeLoopAux render decode (retries + 1) fuel

/-- The retry loop of `main`, parameterised by the Render Client oracle
and the decoder (instantiated with `parseResp` in `runMain`). -/
def scrapeLoop (render : Nat → RenderResult)
    (decode : JValue → Except String CommentResponse) (maxRetries : Nat) : LoopResult :=
  scrapeLoopAux render decode 0 (maxRetries + 1)

/-- Observable termination of one `main` run on a given URL argument:
which terminal state it reached, and, in the written case, the single
output file (name and contents). -/
inductive MainOutcome where
  | invalidURL (e : URLErr) : MainOutcome
  | renderExited (kind : RenderErrKind) : MainOutcome
  | nilPanic : MainOutcome
  | csvPanic : MainOutcome
  | wrote (filename : String) (contents : String) : MainOutcome
  deriving Repr, DecidableEq

/-- Embedding of `main` after argument/logger setup: resolve the URL
(`cfg = nil`), run the retry loop against the Render Client, and only on
a decoded response serialize and write `<Name>-comments.csv`. -/
def runMain (dmURL : String) (render : Nat → RenderResult) : MainOutcome :=
  match ArticleInfoFromURL dmURL none with
  | .error e => .invalidURL e
  | .ok info =>
    match scrapeLoop render parseResp Retries with
    | .exited kind _ => .renderExited kind
    | .nilPanic _ => .nilPanic
    | .success resp _ =>
      match CommentsToCSV resp.Payload.Page with
      | none => .csvPanic
      | some csv => .wrote (info.Name ++ "-comments.csv") csv

/-! ### Shared helper lemmas -/

theorem string_append_assoc (a b c : String) : a ++ b ++ c = a ++ (b ++ c) := by
  cases a with
  | mk da =>
    cases b with
    | mk db =>
      cases c with
      | mk dc =>
        show String.append (String.append ⟨da⟩ ⟨db⟩) ⟨dc⟩ =
          String.append ⟨da⟩ (String.append ⟨db⟩ ⟨dc⟩)
        simp [String.append]

/-- The retry loop under a behaviour whose every attempt renders a page
that fails to decode: it burns all its fuel and ends in the nil-pointer
panic, having performed one attempt per unit of fuel. -/
theorem scrapeLoopAux_all_decode_failures
    (render : Nat → RenderResult) (decode : JValue → Except String CommentResponse)
    (hfail : ∀ i, ∃ b, render i = .page b ∧ ∃ e, decode b = .error e) :
    ∀ fuel retries, scrapeLoopAux render decode retries fuel = .nilPanic (retries + fuel) := by
  intro fuel
  induction fuel with
  | zero => intro retries; rfl
  | succ n ih =>
    intro retries
    obtain ⟨b, hb, e, he⟩ := hfail retries
    simp only [scrapeLoopAux, hb, he, ih (retries + 1)]
    congr 1
    omega

theorem stringMk_eq_empty_iff (l : List Char) : String.mk l = "" ↔ l = [] := by
  constructor
  · intro h
    exact congrArg String.data h
  · intro h
    cases h
    rfl

/-- Both capture groups of a successful anchored match attempt are
non-empty, and the first consists of decimal digits only. -/
theorem urlMatcherMatchAt_captures (cs : List Char) (d nm : String)
    (h : urlMatcherMatchAt cs = some (d, nm)) :
    d ≠ "" ∧ d.data.all Char.isDigit ∧ nm ≠ "" := by
  simp only [urlMatcherMatchAt] at h
  split at h
  · simp at h
  · split at h
    · split at h
      · simp at h
      · split at h
        · split at h
          · simp at h
          · split at h
            · injection h with h
              injection h with h1 h2
              subst h1
              subst h2
              refine ⟨?_, ?_, ?_⟩
              · simp only [ne_eq, stringMk_eq_empty_iff]
                simp_all
              · simp only [List.all_eq_true]
                intro c hc
                exact List.mem_takeWhile_imp hc
              · simp only [ne_eq, stringMk_eq_empty_iff]
                simp_all
            · simp at h
        · simp at h
    · simp at h

/-- The scan inherits the capture-shape facts of a successful attempt. -/
theorem urlMatcherFind_captures :
    ∀ (cs : List Char) (d nm : String), urlMatcherFind cs = some (d, nm) →
      d ≠ "" ∧ d.data.all Char.isDigit ∧ nm ≠ "" := by
  intro cs
  induction cs with
  | nil => intro d nm h; exact absurd h (by simp [urlMatcherFind])
  | cons c rest ih =>
    intro d nm h
    unfold urlMatcherFind at h
    split at h
    · next heq =>
      injection h with h
      subst h
      exact urlMatcherMatchAt_captures _ _ _ heq
    · exact ih d nm h

/-- Concatenation of a list of strings, head first. -/
def concatStrings : List String → String
  | [] => ""
  | s :: rest => s ++ concatStrings rest

/-- Unrolling of the CSV buffer loop over a slice of non-nil comments:
it appends exactly one rendered record per comment, in order. -/
theorem csvLoop_map_some (cs : List Comment) :
    ∀ buf : String, csvLoop buf (cs.map some) =
      some (buf ++ concatStrings (cs.map fun c => writeRecord (commentRow c))) := by
  induction cs with
  | nil =>
    intro buf
    simp only [List.map_nil, csvLoop, concatStrings, String.append_empty]
  | cons c rest ih =>
    intro buf
    simp only [List.map_cons, csvLoop, concatStrings]
    rw [ih (buf ++ writeRecord (commentRow c))]
    rw [string_append_assoc]

/-- On a non-empty all-digit string within the 64-bit range, `Atoi`
returns its decimal value. -/
theorem goAtoi_digits (s : String) (h1 : s ≠ "") (h2 : s.data.all Char.isDigit)
    (h3 : digitsVal s ≤ 9223372036854775807) :
    goAtoi s = some (Int.ofNat (digitsVal s)) := by
  unfold goAtoi
  rw [if_neg, if_pos h2, if_pos h3]
  simp only [String.isEmpty_iff]
  exact h1

/-- Every identifier `Atoi` can produce here is non-negative. -/
theorem goAtoi_nonneg (s : String) (n : Int) (h : goAtoi s = some n) : 0 ≤ n := by
  unfold goAtoi at h
  split at h
  · simp at h
  · split at h
    · split at h
      · injection h with h
        subst h
        exact Int.ofNat_nonneg _
      · simp at h
    · simp at h

/-! ### Concrete inputs used by the claims -/

/-- The well-formed example article URL of the spec. -/
def exampleURL : String :=
  "https://www.dailymail.co.uk/news/article-1234567/some-headline.html"

/-- A structurally matching URL whose article number is `0`. -/
def zeroIDURL : String :=
  "https://www.dailymail.co.uk/news/article-0/x.html"

/-- A structurally matching URL whose article number exceeds the signed
64-bit range. -/
def hugeIDURL : String :=
  "https://www.dailymail.co.uk/news/article-99999999999999999999/big.html"

/-- The single record of the spec's export example: `userAlias "x"`,
`id 42`, `voteRating -3`, `hasProfilePicture true`, `message "hi"`, all
other fields zero-valued. -/
def exampleComment : Comment :=
  { zeroComment with
    UserAlias := "x", ID := 42, VoteRating := -3, HasProfilePicture := true,
    Message := "hi" }

/-! ### Claim theorems -/

/-- C1: when every attempt renders a page whose decode fails, the
orchestrator performs exactly `maxRetries + 1` render/decode attempts —
but it then terminates in the nil-pointer panic (`commentResp` is still
nil when `main` reads `commentResp.Payload.Page`), not in a clean
`Failed` state carrying the last decode error.  This theorem evaluates
the code on the claim's failing scenario. -/
theorem C1_decode_exhaustion_panics (render : Nat → RenderResult)
    (decode : JValue → Except String CommentResponse) (maxRetries : Nat)
    (hfail : ∀ i, ∃ b, render i = .page b ∧ ∃ e, decode b = .error e) :
    scrapeLoop render decode maxRetries = .nilPanic (maxRetries + 1) := by
  unfold scrapeLoop
  rw [scrapeLoopAux_all_decode_failures render decode hfail (maxRetries + 1) 0]
  congr 1
  omega

/-- Witness for C1: a stub whose page text is never valid JSON makes the
default-configured loop (`Retries = 3`) panic after 4 attempts. -/
theorem C1_decode_exhaustion_panics_witness :
    scrapeLoop (fun _ => .page (.str "not yet json")) parseResp 3 = .nilPanic 4 :=
  C1_decode_exhaustion_panics (fun _ => .page (.str "not yet json")) parseResp 3
    (fun _ => ⟨.str "not yet json", rfl, _, rfl⟩)

set_option maxRecDepth 8192 in
/-- C2, counterexample: exporting the spec's single example record does
not produce the claimed data row `x,,,,,42,,true,-3,,,,hi` — the
zero-valued integer fields are rendered as `0`, not as empty strings. -/
theorem C2_zero_fields_counterexample :
    CommentsToCSV [some exampleComment] ≠
      some (writeRecord csvHeaders ++ "x,,,,,42,,true,-3,,,,hi\n") := by
  decide

/-- C2, amended: exporting the single record
`{userAlias: "x", id: 42, voteRating: -3, hasProfilePicture: true,
message: "hi"}` yields the header row followed by exactly one data row
`x,,,0,0,42,,true,-3,,0,,hi`: zero-valued string fields are rendered as
the literal empty string, while zero-valued integer fields are rendered
as `0`. -/
theorem C2_example_export :
    CommentsToCSV [some exampleComment] =
      some ("user-alias,user-location,formatted-date-and-time,asset-id,vote-count,id,user-identifier,has-profile-picture,vote-rating,date-created,asset-comment-count,asset-url,message\n"
        ++ "x,,,0,0,42,,true,-3,,0,,hi\n") := by
  rfl

/-- C4: a `Timeout` from the Render Client on the first attempt makes
the run fail immediately — exactly one attempt, no retry, whatever
`maxRetries` is.  (In `main` the timeout error from `scrapeComments`
goes through `MustNotErr`, which exits the process.) -/
theorem C4_timeout_no_retry (render : Nat → RenderResult)
    (decode : JValue → Except String CommentResponse) (maxRetries : Nat)
    (h : render 0 = .timeout) :
    scrapeLoop render decode maxRetries = .exited .timeout 1 := by
  unfold scrapeLoop scrapeLoopAux
  rw [h]

/-- Witness for C4: the always-timeout stub under the default retry
bound. -/
theorem C4_timeout_no_retry_witness :
    scrapeLoop (fun _ => .timeout) parseResp 3 = .exited .timeout 1 :=
  C4_timeout_no_retry (fun _ => .timeout) parseResp 3 rfl

/-- C7: the tabular exporter emits the fixed header record followed by
exactly one record per input comment, in input order; the empty sequence
yields the header row only.  Determinism and idempotence are inherent:
`CommentsToCSV` is a pure function of the comment sequence, so exporting
the same sequence twice yields the same byte string. -/
theorem C7_export_structure (cs : List Comment) :
    CommentsToCSV (cs.map some) =
      some (writeRecord csvHeaders ++
        concatStrings (cs.map fun c => writeRecord (commentRow c))) ∧
    CommentsToCSV [] = some (writeRecord csvHeaders) :=
  ⟨csvLoop_map_some cs (writeRecord csvHeaders), rfl⟩

theorem decodeElem_roundtrip (x : Option Comment) :
    decodeCommentElem (encodeCommentElem x) = .ok x := by
  cases x <;> rfl

theorem mapM_decodeElem_roundtrip (xs : List (Option Comment)) :
    ∀ acc : List (Option Comment),
      List.mapM.loop decodeCommentElem (xs.map encodeCommentElem) acc =
        Except.ok (acc.reverse ++ xs) := by
  induction xs with
  | nil =>
    intro acc
    simp [List.mapM.loop]
    rfl
  | cons x rest ih =>
    intro acc
    simp only [List.map_cons, List.mapM.loop, decodeElem_roundtrip, ih]
    show Except.ok ((x :: acc).reverse ++ rest) = Except.ok (acc.reverse ++ x :: rest)
    simp

/-- C8: decoder round-trip — encoding any `CommentResponse` to JSON and
decoding it with `parseResp` succeeds and returns the same value, field
for field, including every comment of the page sequence in order. -/
theorem C8_decode_encode_roundtrip (r : CommentResponse) :
    parseResp (encodeCommentResponse r) = .ok r := by
  simp only [parseResp, updCommentResponse, encodeCommentResponse, List.foldlM,
    setCommentResponseField, updStr, updPayload, encodePayload, setPayloadField, updInt,
    updPage, List.mapM, mapM_decodeElem_roundtrip, Except.map, List.reverse_nil,
    List.nil_append]
  rfl

/-- Tests whether a resolver result is the `failed to parse name` error. -/
def isEmptyNameFailure : Except URLErr ArticleInfo → Bool
  | .error .emptyName => true
  | _ => false

/-- C9: the `failed to parse name` branch of the URL resolver is
unreachable — whenever the pattern matches, the captured slug group is
non-empty (it is one-or-more `[\w-]` characters), so no input ever
produces that error. -/
theorem C9_empty_name_unreachable (s : String) (cfg : Option ScrapeCfg) :
    isEmptyNameFailure (ArticleInfoFromURL s cfg) = false := by
  unfold ArticleInfoFromURL
  split
  · rfl
  · split
    · split
      · rfl
      · split
        · rfl
        · split
          · exfalso
            rename_i nm hfind x id hatoi hcond
            obtain ⟨-, -, hnm⟩ := urlMatcherFind_captures _ _ _ hfind
            exact hnm hcond
          · rfl
    · rfl

/-- C10: the decoder accepts the degenerate documents `null` and `{}`:
both decode successfully to the all-zero `CommentResponse`, whose page
sequence is empty, and exporting that page yields the header-only CSV —
so a successful decode does not imply any comment data was present. -/
theorem C10_degenerate_inputs_decode :
    parseResp JValue.null = .ok zeroCommentResponse ∧
    parseResp (JValue.obj []) = .ok zeroCommentResponse ∧
    zeroCommentResponse.Payload.Page = [] ∧
    CommentsToCSV zeroCommentResponse.Payload.Page = some (writeRecord csvHeaders) :=
  ⟨rfl, rfl, rfl, rfl⟩

set_option maxRecDepth 200000 in
/-- C3, counterexample: a URL on the expected host whose path matches
the structural pattern, with a 20-digit article number — the resolver
does not return an `ArticleRef`; `strconv.Atoi` overflows the 64-bit
`int` range and the run fails with `InvalidURL` (`couldn't convert
article ID to an integer`). -/
theorem C3_huge_id_counterexample :
    goURLParse hugeIDURL =
      some { hostname := "www.dailymail.co.uk", serialized := hugeIDURL } ∧
    urlMatcherFind hugeIDURL.data = some ("99999999999999999999", "big") ∧
    ArticleInfoFromURL hugeIDURL none = .error .badArticleID :=
  ⟨rfl, rfl, rfl⟩

set_option maxRecDepth 200000 in
/-- C3, amended: for every URL that parses, has the expected host, and
matches the structural pattern, *and whose numeric segment fits the
signed 64-bit integer range*, the resolver returns an `ArticleRef` whose
ID is the value of the numeric segment and whose slug is the trailing
filename segment; a URL that fails to parse or has a different host
fails with the `invalid URL` error, and one that does not match the
pattern fails with the `URL didn't match expected structure` error.  The
spec's example URL resolves to ID `1234567` and slug `some-headline`,
and its endpoint ends with `/readcomments/1234567?max=506&order=desc`
under the default configuration. -/
theorem C3_resolver_contract :
    (∀ s cfg u d nm, goURLParse s = some u →
      u.hostname = "www.dailymail.co.uk" →
      urlMatcherFind u.serialized.data = some (d, nm) →
      digitsVal d ≤ 9223372036854775807 →
      ArticleInfoFromURL s cfg =
        .ok { ID := Int.ofNat (digitsVal d), Name := nm,
              scrapeCfg := cfg.getD DefaultScrapeCfg }) ∧
    (∀ s cfg, goURLParse s = none →
      ArticleInfoFromURL s cfg = .error .invalidURL) ∧
    (∀ s cfg u, goURLParse s = some u →
      u.hostname ≠ "www.dailymail.co.uk" →
      ArticleInfoFromURL s cfg = .error .invalidURL) ∧
    (∀ s cfg u, goURLParse s = some u →
      u.hostname = "www.dailymail.co.uk" →
      urlMatcherFind u.serialized.data = none →
      ArticleInfoFromURL s cfg = .error .structureMismatch) ∧
    ArticleInfoFromURL exampleURL none =
      .ok { ID := 1234567, Name := "some-headline", scrapeCfg := DefaultScrapeCfg } ∧
    List.isSuffixOf "/readcomments/1234567?max=506&order=desc".data
      (commentsEndpoint
        { ID := 1234567, Name := "some-headline", scrapeCfg := DefaultScrapeCfg }).data
      = true := by
  refine ⟨?_, ?_, ?_, ?_, ?_, ?_⟩
  · intro s cfg u d nm hp hh hm hbound
    obtain ⟨hd, hdig, hnm⟩ := urlMatcherFind_captures _ _ _ hm
    simp [ArticleInfoFromURL, hp, hh, hm, goAtoi_digits d hd hdig hbound, hnm]
  · intro s cfg hp
    simp [ArticleInfoFromURL, hp]
  · intro s cfg u hp hh
    simp [ArticleInfoFromURL, hp, hh]
  · intro s cfg u hp hh hm
    simp [ArticleInfoFromURL, hp, hh, hm]
  · rfl
  · rfl

set_option maxRecDepth 200000 in
/-- Witness for C3: each implication of the contract instantiated at a
concrete URL — the spec's example URL for the success case, a URL with a
control character for the parse-failure case, a `www.example.com` URL
for the wrong-host case, and a pattern-free Daily Mail URL for the
no-match case. -/
theorem C3_resolver_contract_witness :
    ArticleInfoFromURL exampleURL none =
      .ok { ID := Int.ofNat (digitsVal "1234567"), Name := "some-headline",
            scrapeCfg := (none : Option ScrapeCfg).getD DefaultScrapeCfg } ∧
    ArticleInfoFromURL "https://www.dailymail.co.uk/\x00" none = .error .invalidURL ∧
    ArticleInfoFromURL "https://www.example.com/news/article-1234567/some-headline.html"
      none = .error .invalidURL ∧
    ArticleInfoFromURL "https://www.dailymail.co.uk/home/index.shtml" none =
      .error .structureMismatch :=
  ⟨C3_resolver_contract.1 exampleURL none
      { hostname := "www.dailymail.co.uk", serialized := exampleURL }
      "1234567" "some-headline" rfl rfl rfl (by decide),
   C3_resolver_contract.2.1 "https://www.dailymail.co.uk/\x00" none rfl,
   C3_resolver_contract.2.2.1
      "https://www.example.com/news/article-1234567/some-headline.html" none
      { hostname := "www.example.com",
        serialized := "https://www.example.com/news/article-1234567/some-headline.html" }
      rfl (by decide),
   C3_resolver_contract.2.2.2.1 "https://www.dailymail.co.uk/home/index.shtml" none
      { hostname := "www.dailymail.co.uk",
        serialized := "https://www.dailymail.co.uk/home/index.shtml" }
      rfl rfl rfl⟩

/-- C5: a `main` run writes its output file only when the URL resolved,
the retry loop ended in a successfully decoded response, and the
complete response serialized — so every run that terminates in an error
state (invalid URL, render failure or timeout, decode-retry exhaustion)
writes nothing, and the single write happens only after a full
successful decode. -/
theorem C5_output_only_on_success (dmURL : String) (render : Nat → RenderResult)
    (f c : String) (h : runMain dmURL render = .wrote f c) :
    ∃ info resp k, ArticleInfoFromURL dmURL none = .ok info ∧
      scrapeLoop render parseResp Retries = .success resp k ∧
      CommentsToCSV resp.Payload.Page = some c ∧
      f = info.Name ++ "-comments.csv" := by
  unfold runMain at h
  split at h
  · simp at h
  · split at h
    · simp at h
    · simp at h
    · split at h
      · simp at h
      · rename_i x1 info hA x2 resp k hS x3 csv hC
        injection h with h1 h2
        subst h2
        exact ⟨info, resp, k, hA, hS, hC, h1.symm⟩

set_option maxRecDepth 200000 in
/-- Witness for C5: a successful run on the example URL with a renderer
whose page is the empty JSON object writes the header-only CSV under the
slug-derived filename. -/
theorem C5_output_only_on_success_witness :
    ∃ info resp k,
      ArticleInfoFromURL exampleURL none = .ok info ∧
      scrapeLoop (fun _ => .page (.obj [])) parseResp Retries = .success resp k ∧
      CommentsToCSV resp.Payload.Page = some (writeRecord csvHeaders) ∧
      "some-headline-comments.csv" = info.Name ++ "-comments.csv" :=
  C5_output_only_on_success exampleURL (fun _ => .page (.obj []))
    "some-headline-comments.csv" (writeRecord csvHeaders) rfl

set_option maxRecDepth 200000 in
/-- C6, counterexample: the resolver accepts an article number of `0` —
the returned `ArticleRef`'s ID is not a positive integer. -/
theorem C6_zero_id_counterexample :
    ArticleInfoFromURL zeroIDURL none =
      .ok { ID := 0, Name := "x", scrapeCfg := DefaultScrapeCfg } ∧
    ¬ (0 : Int) <
      ({ ID := 0, Name := "x", scrapeCfg := DefaultScrapeCfg } : ArticleInfo).ID :=
  ⟨rfl, by decide⟩

/-- C6, amended: every `ArticleRef` the resolver returns has a
*non-negative* ID (the digit-only capture can be `0`) and a non-empty
slug.  Immutability is inherent in the embedding: the Go struct is never
mutated after construction. -/
theorem C6_ref_invariant (s : String) (cfg : Option ScrapeCfg) (a : ArticleInfo)
    (h : ArticleInfoFromURL s cfg = .ok a) : 0 ≤ a.ID ∧ a.Name ≠ "" := by
  unfold ArticleInfoFromURL at h
  split at h
  · simp at h
  · split at h
    · split at h
      · simp at h
      · split at h
        · simp at h
        · split at h
          · simp at h
          · rename_i nm hfind x id hatoi hcond
            injection h with h
            subst h
            exact ⟨goAtoi_nonneg _ _ hatoi, hcond⟩
    · simp at h

set_option maxRecDepth 200000 in
/-- Witness for C6: the invariant instantiated on the example URL's
resolution. -/
theorem C6_ref_invariant_witness :
    0 ≤ ({ ID := 1234567, Name := "some-headline",
           scrapeCfg := DefaultScrapeCfg } : ArticleInfo).ID ∧
    ({ ID := 1234567, Name := "some-headline",
       scrapeCfg := DefaultScrapeCfg } : ArticleInfo).Name ≠ "" :=
  C6_ref_invariant exampleURL none
    { ID := 1234567, Name := "some-headline", scrapeCfg := DefaultScrapeCfg } rfl

end DMScrape
